import Mathlib

/-!
Verification development for the cli-nlp repository: a shallow embedding of
the command-generation CLI (src/cli_nlp.py, src/cli_nlp/command_runner.py,
src/cli_nlp/utils.py), together with models of the cache engine, history
ledger and safety-gated execution pipeline that the repository's test suite
exercises, and theorems settling the behavioural claims about them.
-/

set_option linter.unusedVariables false

/-! ## Configuration data and file state (src/cli_nlp.py) -/

/-- The subset of the JSON configuration document that the command path
reads: `openai_api_key`, `default_model`, `temperature`, `max_tokens`.
A `none` field means the key is absent from the document. -/
structure ConfigData where
  openai_api_key : Option String
  default_model : Option String
  temperature : Option Rat
  max_tokens : Option Nat
deriving DecidableEq

/-- The configuration with no keys set, i.e. the empty JSON object. -/
def emptyConfig : ConfigData :=
  { openai_api_key := none, default_model := none,
    temperature := none, max_tokens := none }

/-- Possible states of the config file on disk, as `load_config` can
observe them: absent, present but not valid JSON, present but unreadable
(an OS-level read error), or present and valid with parsed contents. -/
inductive FileState where
  | absent
  | invalidJson
  | unreadable
  | valid (cfg : ConfigData)
deriving DecidableEq

/-- Embedding of `load_config` (src/cli_nlp.py lines 73-89): a missing file
yields the empty configuration; invalid JSON or a read error aborts the
process with exit code 1 (modelled as `Except.error 1`). -/
def load_config : FileState → Except Nat ConfigData
  | FileState.absent => Except.ok emptyConfig
  | FileState.invalidJson => Except.error 1
  | FileState.unreadable => Except.error 1
  | FileState.valid cfg => Except.ok cfg

/-- The default configuration template written by `create_default_config`
(src/cli_nlp.py lines 100-105). -/
def default_config : ConfigData :=
  { openai_api_key := some "",
    default_model := some "gpt-4o-mini",
    temperature := some ((3 : Rat) / 10),
    max_tokens := some 200 }

/-- Embedding of `create_default_config` (src/cli_nlp.py lines 92-119): if
the config file exists in any state, print a notice and return `false`
without touching it; otherwise write the default template (the boolean
`writeOk` models whether the file write raises, in which case the function
returns `false`). Returns the Python return value paired with the resulting
file state. -/
def create_default_config (fs : FileState) (writeOk : Bool) : Bool × FileState :=
  match fs with
  | FileState.absent =>
      if writeOk then (true, FileState.valid default_config)
      else (false, FileState.absent)
  | other => (false, other)

/-! ## Parameter resolution (src/cli_nlp.py lines 168-173 and
src/cli_nlp/command_runner.py lines 88-91; both files carry the same
logic) -/

/-- Embedding of `model = model or config.get("default_model",
"gpt-4o-mini")`: Python `or` falls through on a falsy value, so both a
`None` argument and an explicitly passed empty string defer to the
configuration value, which itself defaults to `gpt-4o-mini`. -/
def resolveModel (arg : Option String) (cfgVal : Option String) : String :=
  match arg with
  | some m => if m = "" then cfgVal.getD "gpt-4o-mini" else m
  | none => cfgVal.getD "gpt-4o-mini"

/-- Embedding of `temperature = temperature if temperature is not None else
config.get("temperature", 0.3)`. -/
def resolveTemperature (arg : Option Rat) (cfgVal : Option Rat) : Rat :=
  match arg with
  | some t => t
  | none => cfgVal.getD ((3 : Rat) / 10)

/-- Embedding of `max_tokens = max_tokens if max_tokens is not None else
config.get("max_tokens", 200)`. -/
def resolveMaxTokens (arg : Option Nat) (cfgVal : Option Nat) : Nat :=
  match arg with
  | some n => n
  | none => cfgVal.getD 200

/-! ## API-key resolution and client construction (src/cli_nlp.py lines
122-145, src/cli_nlp/command_runner.py lines 47-67) -/

/-- Python truthiness on an optional string: `None` and the empty string
are both falsy. -/
def truthyString : Option String → Option String
  | none => none
  | some s => if s = "" then none else some s

/-- Embedding of `api_key = config.get("openai_api_key") or
os.getenv("OPENAI_API_KEY")` followed by the `if not api_key` check: the
resolved key, or `none` when both sources are falsy. -/
def resolveApiKey (cfg : ConfigData) (envKey : Option String) : Option String :=
  match truthyString cfg.openai_api_key with
  | some k => some k
  | none => truthyString envKey

/-- Embedding of `get_openai_client` (src/cli_nlp.py lines 122-145): load
the config (propagating its fatal exit), resolve the API key from config or
environment, and abort with exit code 1 and a remediation message when no
key is found. The constructed client is modelled as `Unit`. -/
def get_openai_client (fs : FileState) (envKey : Option String) : Except Nat Unit :=
  match load_config fs with
  | Except.error code => Except.error code
  | Except.ok cfg =>
      match resolveApiKey cfg envKey with
      | none => Except.error 1
      | some _ => Except.ok ()

/-! ## Clipboard helper (src/cli_nlp/utils.py lines 40-76) -/

/-- The environment the clipboard helper observes: whether each tool is on
PATH, and whether each tool's subprocess invocation succeeds (a `false`
models `CalledProcessError` or `FileNotFoundError`, the two exceptions the
source catches). -/
structure ClipboardEnv where
  xclipAvailable : Bool
  xselAvailable : Bool
  xclipRunOk : Bool
  xselRunOk : Bool
deriving DecidableEq

/-- Embedding of `check_clipboard_available`: true iff `xclip` or `xsel`
is found on PATH. -/
def check_clipboard_available (e : ClipboardEnv) : Bool :=
  e.xclipAvailable || e.xselAvailable

/-- Embedding of `copy_to_clipboard` (src/cli_nlp/utils.py lines 46-76):
bail out with `false` when no tool is available; otherwise try `xclip`,
fall back to `xsel`, and return `false` when both invocations fail. Total:
every branch returns a boolean. -/
def copy_to_clipboard (e : ClipboardEnv) : Bool :=
  if !check_clipboard_available e then false
  else if e.xclipRunOk then true
  else if e.xselRunOk then true
  else false

/-! ## The run pipeline in the provided sources (src/cli_nlp.py lines
341-381; src/cli_nlp/command_runner.py lines 119-164 is the same control
flow with the client held by the runner) -/

/-- Outcome of the provider call inside `generate_command` as the run
pipeline observes it: either the post-processed command text or a fatal
generation error (`typer.Exit(1)`). -/
inductive GenOutcome where
  | success (command : String)
  | providerError
deriving DecidableEq

/-- Outcome of the `subprocess.run(command, shell=True, check=False)`
dispatch: the child completed with a return code, the user interrupted it
(`KeyboardInterrupt`), or the dispatch itself raised some other
exception. -/
inductive ExecOutcome where
  | completed (returncode : Int)
  | interrupted
  | failed
deriving DecidableEq

/-- Observable trace of one `_run_command` invocation: the explicit process
exit code (`none` means the function returned normally and the CLI exits
0), how many provider calls were made, whether the shell subprocess was
dispatched, whether the command panel was displayed, whether the clipboard
warning was printed, and whether a configuration remediation hint was
printed. -/
structure RunTrace where
  exitCode : Option Int
  providerCalls : Nat
  subprocessInvoked : Bool
  displayed : Bool
  clipboardWarned : Bool
  hintShown : Bool
deriving DecidableEq

/-- The process exit code an invoking shell observes for a trace: the
explicit `sys.exit`/`typer.Exit` code, or 0 on a normal return. -/
def processExit (t : RunTrace) : Int :=
  t.exitCode.getD 0

/-- Embedding of `_run_command` (src/cli_nlp.py lines 341-381): build the
client (fatal exit on configuration errors, before any provider call),
generate the command (one provider call; fatal exit 1 on generation error),
display it, optionally attempt a best-effort clipboard copy whose failure
only prints a warning, and, when `execute` is set, dispatch the shell
subprocess and exit with the child's return code — 130 on keyboard
interrupt, 1 on a dispatch exception. -/
def runCommandPipeline (fs : FileState) (envKey : Option String)
    (gen : GenOutcome) (exec : ExecOutcome) (clip : ClipboardEnv)
    (execute : Bool) (copy : Bool) : RunTrace :=
  match get_openai_client fs envKey with
  | Except.error code =>
      { exitCode := some (code : Int), providerCalls := 0,
        subprocessInvoked := false, displayed := false,
        clipboardWarned := false, hintShown := true }
  | Except.ok _ =>
      match gen with
      | GenOutcome.providerError =>
          { exitCode := some 1, providerCalls := 1,
            subprocessInvoked := false, displayed := false,
            clipboardWarned := false, hintShown := false }
      | GenOutcome.success _ =>
          let warned := copy && !copy_to_clipboard clip
          if execute then
            match exec with
            | ExecOutcome.completed rc =>
                { exitCode := some rc, providerCalls := 1,
                  subprocessInvoked := true, displayed := true,
                  clipboardWarned := warned, hintShown := false }
            | ExecOutcome.interrupted =>
                { exitCode := some 130, providerCalls := 1,
                  subprocessInvoked := true, displayed := true,
                  clipboardWarned := warned, hintShown := false }
            | ExecOutcome.failed =>
                { exitCode := some 1, providerCalls := 1,
                  subprocessInvoked := true, displayed := true,
                  clipboardWarned := warned, hintShown := false }
          else
            { exitCode := none, providerCalls := 1,
              subprocessInvoked := false, displayed := true,
              clipboardWarned := warned, hintShown := false }

/-! ## Markdown fence stripping (src/cli_nlp.py lines 204-212,
src/cli_nlp/command_runner.py lines 105-113)

Python strings are modelled as lists of characters so that `str.strip`,
`str.split` and `str.join` can be embedded with their exact semantics. -/

/-- The characters Python's default `str.strip` removes. -/
def isPySpace (c : Char) : Bool :=
  c = ' ' || c = '\t' || c = '\n' || c = '\r' ||
  c = Char.ofNat 11 || c = Char.ofNat 12

/-- Embedding of Python `str.strip()`: drop whitespace from both ends. -/
def pyStrip (s : List Char) : List Char :=
  ((s.dropWhile isPySpace).reverse.dropWhile isPySpace).reverse

/-- Embedding of Python `str.split("\n")`: split on every newline,
keeping empty pieces, never returning an empty list. -/
def pySplitNl (s : List Char) : List (List Char) :=
  match s with
  | [] => [[]]
  | c :: rest =>
      if c = '\n' then [] :: pySplitNl rest
      else
        match pySplitNl rest with
        | [] => [[c]]
        | l :: ls => (c :: l) :: ls

/-- Embedding of Python `"\n".join(lines)`. -/
def pyJoinNl : List (List Char) → List Char
  | [] => []
  | [l] => l
  | l :: l2 :: ls => l ++ '\n' :: pyJoinNl (l2 :: ls)

/-- The backtick character, written by code point to keep source lines
free of the literal character. -/
def btChar : Char := Char.ofNat 96

/-- The three-backtick Markdown fence marker. -/
def fenceMarker : List Char := [btChar, btChar, btChar]

/-- Embedding of `command.startswith("\x60\x60\x60")`. -/
def startsWithFence (s : List Char) : Bool :=
  match s with
  | b1 :: b2 :: b3 :: _ => b1 = btChar && b2 = btChar && b3 = btChar
  | _ => false

/-- Embedding of the fence-removal block (src/cli_nlp.py lines 206-210):
when the text starts with a fence, split into lines, drop the first and
last line when there are more than two lines (otherwise keep the text
unchanged), and strip the result. -/
def stripMarkdownFences (command : List Char) : List Char :=
  if startsWithFence command then
    let lines := pySplitNl command
    let command' :=
      if lines.length > 2 then pyJoinNl (lines.drop 1).dropLast else command
    pyStrip command'
  else command

/-- Embedding of the full post-processing of the provider's message content
in `generate_command`: `content.strip()` followed by the fence-removal
block. -/
def extractCommand (content : List Char) : List Char :=
  stripMarkdownFences (pyStrip content)

/-! ## Safety model, cache engine, history ledger, execution gate

The modules `cli_nlp/models.py`, `cli_nlp/cache_manager.py`,
`cli_nlp/history_manager.py` and the safety-gated `CommandRunner.run` they
support are exercised by the test suite (src/tests) but their sources are
not in the provided tree, so they are modelled from the specification. -/

/-- Modelled from the spec: `SafetyLevel` of `cli_nlp/models.py` (absent
from the provided sources; only its tests are present). Enumeration of the
advisory safety classification: SAFE (read-only) or MODIFYING
(state-changing). -/
inductive SafetyLevel where
  | SAFE
  | MODIFYING
deriving DecidableEq

/-- Modelled from the spec: `CommandResponse` of `cli_nlp/models.py`
(absent from the provided sources). Immutable value holding the generated
command, the advisory safety boolean, the safety level and an optional
explanation; `is_safe` is settable independently of `safety_level`. -/
structure CommandResponse where
  command : String
  is_safe : Bool
  safety_level : SafetyLevel
  explanation : Option String
deriving DecidableEq

/-- Modelled from the spec: `CacheEntry` of `cli_nlp/cache_manager.py`
(absent from the provided sources). Mirrors the `CommandResponse` fields
plus a creation timestamp (seconds) and a TTL window. -/
structure CacheEntry where
  command : String
  is_safe : Bool
  safety_level : SafetyLevel
  explanation : Option String
  timestamp : Int
  ttl_seconds : Int
deriving DecidableEq

/-- Modelled from the spec: `CacheEntry.is_expired` — an entry is expired
once `now - timestamp > ttl_seconds`. -/
def CacheEntry.is_expired (e : CacheEntry) (now : Int) : Bool :=
  now - e.timestamp > e.ttl_seconds

/-- The cache entry recording a response at a given instant. -/
def entryOfResponse (r : CommandResponse) (now ttl : Int) : CacheEntry :=
  { command := r.command, is_safe := r.is_safe,
    safety_level := r.safety_level, explanation := r.explanation,
    timestamp := now, ttl_seconds := ttl }

/-- The response deserialized back out of a cache entry. -/
def responseOfEntry (e : CacheEntry) : CommandResponse :=
  { command := e.command, is_safe := e.is_safe,
    safety_level := e.safety_level, explanation := e.explanation }

/-- Modelled from the spec: the in-memory state of
`cli_nlp/cache_manager.py` (absent from the provided sources) — an
association list from the cache key, a deterministic function of
(query, model), to entries, plus hit and miss counters. -/
structure CacheState where
  entries : List ((String × String) × CacheEntry)
  hits : Nat
  misses : Nat
deriving DecidableEq

/-- The empty cache with zeroed counters. -/
def emptyCache : CacheState := { entries := [], hits := 0, misses := 0 }

/-- Lookup in the cache's association list by key. -/
def cacheLookup (key : String × String) :
    List ((String × String) × CacheEntry) → Option CacheEntry
  | [] => none
  | (k, e) :: rest => if k = key then some e else cacheLookup key rest

/-- Remove every binding of a key from the cache's association list. -/
def cacheErase (key : String × String)
    (l : List ((String × String) × CacheEntry)) :
    List ((String × String) × CacheEntry) :=
  l.filter (fun p => p.1 ≠ key)

/-- Modelled from the spec: `CacheManager.get` of
`cli_nlp/cache_manager.py` (absent from the provided sources). Computes the
key from query and model; on a hit with an expired entry, evicts it and
counts a miss; on a fresh hit, counts a hit and returns the deserialized
response; on a miss, counts a miss. -/
def CacheManager.get (now : Int) (query model : String) (s : CacheState) :
    Option CommandResponse × CacheState :=
  let key := (query, model)
  match cacheLookup key s.entries with
  | none => (none, { s with misses := s.misses + 1 })
  | some e =>
      if e.is_expired now then
        (none, { s with entries := cacheErase key s.entries,
                        misses := s.misses + 1 })
      else
        (some (responseOfEntry e), { s with hits := s.hits + 1 })

/-- Modelled from the spec: `CacheManager.set` — insert or overwrite the
entry for (query, model) with timestamp `now` and the configured TTL. -/
def CacheManager.set (now ttl : Int) (query model : String)
    (r : CommandResponse) (s : CacheState) : CacheState :=
  { s with entries :=
      ((query, model), entryOfResponse r now ttl) :: cacheErase (query, model) s.entries }

/-- Statistics returned by `get_stats`. -/
structure CacheStats where
  hits : Nat
  misses : Nat
  total : Nat
  hit_rate : Rat
  entries : Nat
deriving DecidableEq

/-- Modelled from the spec: `CacheManager.get_stats` — hits, misses,
total, `hit_rate = 100 * hits / total` (0 when the total is 0, which is
what rational division by zero yields), and the number of live entries. -/
def CacheManager.get_stats (s : CacheState) : CacheStats :=
  { hits := s.hits, misses := s.misses, total := s.hits + s.misses,
    hit_rate := 100 * (s.hits : Rat) / ((s.hits + s.misses : Nat) : Rat),
    entries := s.entries.length }

/-- Modelled from the spec: the provider behaviours `generate_command` can
observe on a cache miss — structured decoding succeeds in one call, the
capability error triggers the raw-JSON fallback which then succeeds (a
second call), or the request fails with a content/transport error. -/
inductive ProviderBehavior where
  | structured (r : CommandResponse)
  | jsonFallback (r : CommandResponse)
  | failure
deriving DecidableEq

/-- Modelled from the spec: `CommandRunner.generate_command` of the full
`cli_nlp/command_runner.py` (the provided copy of that file predates the
cache engine; only the tests exercise this version). With `use_cache` set,
a fresh cache entry is returned with no provider call; otherwise the
provider is consulted and, on success, the response is written through to
the cache keyed by (query, resolved model). Returns the response, the new
cache state and the number of provider calls made, or the fatal exit code
1 on an unrecoverable provider error. -/
def CommandRunner.generate_command (now ttl : Int) (query model : String)
    (use_cache : Bool) (provider : ProviderBehavior) (s : CacheState) :
    Except Nat (CommandResponse × CacheState × Nat) :=
  let doCall : CacheState → Except Nat (CommandResponse × CacheState × Nat) :=
    fun s0 =>
      match provider with
      | ProviderBehavior.structured r =>
          Except.ok (r, CacheManager.set now ttl query model r s0, 1)
      | ProviderBehavior.jsonFallback r =>
          Except.ok (r, CacheManager.set now ttl query model r s0, 2)
      | ProviderBehavior.failure => Except.error 1
  if use_cache then
    match CacheManager.get now query model s with
    | (some r, s') => Except.ok (r, s', 0)
    | (none, s') => doCall s'
  else doCall s

/-- Modelled from the spec: `HistoryEntry` of `cli_nlp/history_manager.py`
(absent from the provided sources). One record per completed run: query,
command, safety fields, whether a subprocess was dispatched, and its return
code when it was. -/
structure HistoryEntry where
  query : String
  command : String
  is_safe : Bool
  safety_level : SafetyLevel
  executed : Bool
  return_code : Option Int
deriving DecidableEq

/-- Observable trace of one safety-gated `CommandRunner.run` invocation:
the explicit process exit code (`none` is a normal return, i.e. exit 0),
whether the shell subprocess was dispatched, and the full history ledger
after the call. -/
structure GateResult where
  exitCode : Option Int
  subprocessInvoked : Bool
  history : List HistoryEntry
deriving DecidableEq

/-- The history entry the gate records for a run, given the response, the
displayed/executed command, and the execution outcome fields. -/
def gateHistoryEntry (query : String) (resp : CommandResponse)
    (executed : Bool) (return_code : Option Int) : HistoryEntry :=
  { query := query, command := resp.command, is_safe := resp.is_safe,
    safety_level := resp.safety_level, executed := executed,
    return_code := return_code }

/-- Modelled from the spec: the safety-gated `CommandRunner.run` of the
full `cli_nlp/command_runner.py` (the provided copy of that file predates
the safety gate and history ledger; only the tests exercise this version).
First matching branch wins: `alternatives` displays options and records no
history; `refine` displays and optionally refines without auto-executing;
otherwise the command is displayed, optionally copied (best-effort), and —
when `execute` is set — the safety policy is enforced: a response whose
`safety_level` is not SAFE is refused with exit 1 unless `force` is set,
without dispatching the subprocess; a permitted dispatch exits with the
child's return code, 130 on keyboard interrupt, 1 on a dispatch error, and
each recorded return code also lands in the history entry. Every branch
except the pure alternatives display appends exactly one entry to the
ledger. -/
def CommandRunner.run (query : String) (resp : CommandResponse)
    (exec : ExecOutcome) (clip : ClipboardEnv)
    (execute force copy alternatives refine : Bool)
    (hist : List HistoryEntry) : GateResult :=
  if alternatives then
    { exitCode := none, subprocessInvoked := false, history := hist }
  else if refine then
    { exitCode := none, subprocessInvoked := false,
      history := hist ++ [gateHistoryEntry query resp false none] }
  else
    let warned := copy && !copy_to_clipboard clip
    if execute then
      if resp.safety_level ≠ SafetyLevel.SAFE && !force then
        { exitCode := some 1, subprocessInvoked := false,
          history := hist ++ [gateHistoryEntry query resp false none] }
      else
        match exec with
        | ExecOutcome.completed rc =>
            { exitCode := some rc, subprocessInvoked := true,
              history := hist ++ [gateHistoryEntry query resp true (some rc)] }
        | ExecOutcome.interrupted =>
            { exitCode := some 130, subprocessInvoked := true,
              history := hist ++ [gateHistoryEntry query resp true (some 130)] }
        | ExecOutcome.failed =>
            { exitCode := some 1, subprocessInvoked := true,
              history := hist ++ [gateHistoryEntry query resp true (some 1)] }
    else
      { exitCode := none, subprocessInvoked := false,
        history := hist ++ [gateHistoryEntry query resp false none] }

/-! ## Concrete fixtures used by the witness theorems -/

/-- A valid configuration holding an API key. -/
def testConfig : ConfigData :=
  { openai_api_key := some "test-api-key", default_model := none,
    temperature := none, max_tokens := none }

/-- A machine with no clipboard tool installed. -/
def noClipboard : ClipboardEnv :=
  { xclipAvailable := false, xselAvailable := false,
    xclipRunOk := false, xselRunOk := false }

/-- A SAFE sample response. -/
def sampleResponse : CommandResponse :=
  { command := "ls -la", is_safe := true,
    safety_level := SafetyLevel.SAFE, explanation := none }

/-- A MODIFYING sample response. -/
def modifyingResponse : CommandResponse :=
  { command := "rm -rf /tmp/test", is_safe := false,
    safety_level := SafetyLevel.MODIFYING, explanation := none }

/-! ## Lemmas about the Python string primitives -/

theorem pySplitNl_no_nl (s : List Char) (h : '\n' ∉ s) : pySplitNl s = [s] := by
  induction s with
  | nil => rfl
  | cons c cs ih =>
      rw [List.mem_cons] at h
      push_neg at h
      obtain ⟨h1, h2⟩ := h
      have hc : ¬(c = '\n') := fun hc => h1 hc.symm
      simp [pySplitNl, hc, ih h2]

theorem pySplitNl_append_nl (xs ys : List Char) (h : '\n' ∉ xs) :
    pySplitNl (xs ++ '\n' :: ys) = xs :: pySplitNl ys := by
  induction xs with
  | nil => simp [pySplitNl]
  | cons c cs ih =>
      rw [List.mem_cons] at h
      push_neg at h
      obtain ⟨h1, h2⟩ := h
      have hc : ¬(c = '\n') := fun hc => h1 hc.symm
      simp [pySplitNl, hc, ih h2]

theorem pySplitNl_joinNl_append (L : List (List Char)) (tail : List Char)
    (hne : L ≠ []) (hL : ∀ l ∈ L, '\n' ∉ l) (ht : '\n' ∉ tail) :
    pySplitNl (pyJoinNl L ++ '\n' :: tail) = L ++ [tail] := by
  induction L with
  | nil => exact absurd rfl hne
  | cons l ls ih =>
      cases ls with
      | nil =>
          have hl : '\n' ∉ l := hL l (by simp)
          rw [show pyJoinNl [l] = l from rfl, pySplitNl_append_nl l tail hl,
            pySplitNl_no_nl tail ht]
          rfl
      | cons l2 ls2 =>
          have hl : '\n' ∉ l := hL l (by simp)
          rw [show pyJoinNl (l :: l2 :: ls2) = l ++ '\n' :: pyJoinNl (l2 :: ls2)
              from rfl,
            List.append_assoc, List.cons_append,
            pySplitNl_append_nl l _ hl,
            ih (by simp) (fun x hx => hL x (List.mem_cons_of_mem l hx))]
          rfl

theorem pyStrip_eq_self (a b : Char) (xs : List Char)
    (ha : isPySpace a = false) (hb : isPySpace b = false) :
    pyStrip (a :: (xs ++ [b])) = a :: (xs ++ [b]) := by
  simp [pyStrip, List.dropWhile_cons, ha, hb, List.reverse_append]

/-! ## C6 — Markdown fence stripping -/

/-- Claim C6 as stated is refuted at two concrete fenced payloads: a fence
pair around a single whitespace-padded line ` ls ` returns the stripped
text, not the inner content verbatim; and a bare fence pair with no line
between the fences is returned unchanged instead of empty. -/
theorem fence_strip_counterexample :
    extractCommand
        (fenceMarker ++ '\n' :: ' ' :: 'l' :: 's' :: ' ' :: '\n' :: fenceMarker)
      = ['l', 's'] ∧
    (['l', 's'] : List Char) ≠ [' ', 'l', 's', ' '] ∧
    extractCommand (fenceMarker ++ '\n' :: fenceMarker)
      = fenceMarker ++ '\n' :: fenceMarker ∧
    fenceMarker ++ '\n' :: fenceMarker ≠ ([] : List Char) := by
  refine ⟨by decide, by decide, by decide, by decide⟩

/-- Claim C6, amended: for every fenced payload with at least one line
between the opening fence line and the closing fence line, the returned
command is the whitespace-stripped join of the inner lines (the fence
lines are removed; a bare fence pair with no inner line is returned
unchanged). -/
theorem fence_strip_amended (lang : List Char) (L : List (List Char))
    (hlang : '\n' ∉ lang) (hL : ∀ l ∈ L, '\n' ∉ l) (hne : L ≠ []) :
    extractCommand
        (fenceMarker ++ lang ++ '\n' :: (pyJoinNl L ++ '\n' :: fenceMarker))
      = pyStrip (pyJoinNl L) := by
  have hshape : fenceMarker ++ lang ++ '\n' :: (pyJoinNl L ++ '\n' :: fenceMarker)
      = btChar :: ((btChar :: btChar :: lang ++ '\n' :: pyJoinNl L ++
          '\n' :: [btChar, btChar]) ++ [btChar]) := by
    simp [fenceMarker]
  have hstrip : pyStrip (fenceMarker ++ lang ++ '\n' ::
      (pyJoinNl L ++ '\n' :: fenceMarker))
      = fenceMarker ++ lang ++ '\n' :: (pyJoinNl L ++ '\n' :: fenceMarker) := by
    rw [hshape, pyStrip_eq_self _ _ _ (by decide) (by decide)]
  have hno : '\n' ∉ fenceMarker ++ lang := by
    intro hmem
    rcases List.mem_append.1 hmem with hmem | hmem
    · exact absurd hmem (by decide)
    · exact hlang hmem
  have hsplit : pySplitNl (fenceMarker ++ lang ++ '\n' ::
      (pyJoinNl L ++ '\n' :: fenceMarker))
      = (fenceMarker ++ lang) :: (L ++ [fenceMarker]) := by
    rw [show fenceMarker ++ lang ++ '\n' :: (pyJoinNl L ++ '\n' :: fenceMarker)
        = (fenceMarker ++ lang) ++ '\n' :: (pyJoinNl L ++ '\n' :: fenceMarker)
        from by simp,
      pySplitNl_append_nl _ _ hno,
      pySplitNl_joinNl_append L fenceMarker hne hL (by decide)]
  have hfence : startsWithFence (fenceMarker ++ lang ++ '\n' ::
      (pyJoinNl L ++ '\n' :: fenceMarker)) = true := by
    simp [startsWithFence, fenceMarker]
  have hlen : 0 < L.length := List.length_pos.2 hne
  rw [extractCommand, hstrip, stripMarkdownFences]
  rw [hfence]
  simp only [if_true, hsplit]
  have hgt : ((fenceMarker ++ lang) :: (L ++ [fenceMarker])).length > 2 := by
    simpa using hlen
  rw [if_pos hgt]
  simp [List.dropLast_concat]

/-! ## Lemmas about the cache association list -/

theorem responseOfEntry_entryOfResponse (r : CommandResponse) (now ttl : Int) :
    responseOfEntry (entryOfResponse r now ttl) = r := rfl

theorem cacheLookup_cacheErase (key : String × String)
    (l : List ((String × String) × CacheEntry)) :
    cacheLookup key (cacheErase key l) = none := by
  induction l with
  | nil => rfl
  | cons p rest ih =>
      by_cases hk : p.1 = key
      · simpa [cacheErase, hk] using ih
      · simpa [cacheErase, cacheLookup, hk] using ih

theorem cacheErase_length_le (key : String × String)
    (l : List ((String × String) × CacheEntry)) :
    (cacheErase key l).length ≤ l.length :=
  List.length_filter_le _ l

/-! ## C1 — execution-gate safety policy -/

/-- Claim C1: on the normal execution path (no alternatives/refine
branch), a response classified MODIFYING together with `execute=true` and
`force=false` never dispatches the shell subprocess and exits with code 1,
while `force=true` dispatches it. -/
theorem gate_safety_blocks_modifying (query : String) (resp : CommandResponse)
    (exec : ExecOutcome) (clip : ClipboardEnv) (copy : Bool)
    (hist : List HistoryEntry)
    (hmod : resp.safety_level = SafetyLevel.MODIFYING) :
    (CommandRunner.run query resp exec clip true false copy false false
        hist).subprocessInvoked = false ∧
    (CommandRunner.run query resp exec clip true false copy false false
        hist).exitCode = some 1 ∧
    (CommandRunner.run query resp exec clip true true copy false false
        hist).subprocessInvoked = true := by
  cases exec <;> simp [CommandRunner.run, hmod]

/-- Witness for C1 at a concrete MODIFYING response. -/
theorem gate_safety_blocks_modifying_witness :
    ({ command := "rm -rf /tmp/test", is_safe := false,
       safety_level := SafetyLevel.MODIFYING,
       explanation := none } : CommandResponse).safety_level
        = SafetyLevel.MODIFYING ∧
    ((CommandRunner.run "delete test directory"
        { command := "rm -rf /tmp/test", is_safe := false,
          safety_level := SafetyLevel.MODIFYING, explanation := none }
        (ExecOutcome.completed 0)
        { xclipAvailable := false, xselAvailable := false,
          xclipRunOk := false, xselRunOk := false }
        true false false false false []).subprocessInvoked = false ∧
      (CommandRunner.run "delete test directory"
        { command := "rm -rf /tmp/test", is_safe := false,
          safety_level := SafetyLevel.MODIFYING, explanation := none }
        (ExecOutcome.completed 0)
        { xclipAvailable := false, xselAvailable := false,
          xclipRunOk := false, xselRunOk := false }
        true false false false false []).exitCode = some 1 ∧
      (CommandRunner.run "delete test directory"
        { command := "rm -rf /tmp/test", is_safe := false,
          safety_level := SafetyLevel.MODIFYING, explanation := none }
        (ExecOutcome.completed 0)
        { xclipAvailable := false, xselAvailable := false,
          xclipRunOk := false, xselRunOk := false }
        true true false false false []).subprocessInvoked = true) :=
  ⟨rfl, gate_safety_blocks_modifying "delete test directory" _ _ _ _ _ rfl⟩

/-! ## C2 — cache round-trip with TTL -/

/-- Claim C2: generation on a cache miss returns the provider's response
and writes it through; a second `generate_command` call for the same
(query, model) with the cache enabled, issued while `now - set_time < ttl`,
returns the same response with zero provider calls regardless of the
provider's behaviour; once `now - set_time > ttl` the lookup returns
`none`, the entry is gone from the map, and the live entry count
decreases. -/
theorem cache_roundtrip_ttl (query model : String) (r : CommandResponse)
    (s s' : CacheState) (t0 t1 t2 ttl ttl2 : Int)
    (prov2 : ProviderBehavior)
    (h0 : cacheLookup (query, model) s.entries = none)
    (h1 : t1 - t0 < ttl) (h2 : t2 - t0 > ttl) :
    CommandRunner.generate_command t0 ttl query model true
        (ProviderBehavior.structured r) s
      = Except.ok (r, CacheManager.set t0 ttl query model r
          { s with misses := s.misses + 1 }, 1) ∧
    CommandRunner.generate_command t1 ttl2 query model true prov2
        (CacheManager.set t0 ttl query model r s')
      = Except.ok (r,
          { CacheManager.set t0 ttl query model r s' with
            hits := (CacheManager.set t0 ttl query model r s').hits + 1 }, 0) ∧
    (CacheManager.get t2 query model
        (CacheManager.set t0 ttl query model r s')).1 = none ∧
    cacheLookup (query, model)
        (CacheManager.get t2 query model
          (CacheManager.set t0 ttl query model r s')).2.entries = none ∧
    (CacheManager.get_stats (CacheManager.get t2 query model
        (CacheManager.set t0 ttl query model r s')).2).entries
      < (CacheManager.get_stats
          (CacheManager.set t0 ttl query model r s')).entries := by
  have hfresh : (entryOfResponse r t0 ttl).is_expired t1 = false := by
    simp only [CacheEntry.is_expired, entryOfResponse]
    simp only [decide_eq_false_iff_not]
    omega
  have hstale : (entryOfResponse r t0 ttl).is_expired t2 = true := by
    simp only [CacheEntry.is_expired, entryOfResponse]
    simp only [decide_eq_true_eq]
    omega
  refine ⟨?_, ?_, ?_, ?_, ?_⟩
  · simp [CommandRunner.generate_command, CacheManager.get, h0]
  · simp [CommandRunner.generate_command, CacheManager.get, CacheManager.set,
      cacheLookup, hfresh, responseOfEntry_entryOfResponse]
  · simp [CacheManager.get, CacheManager.set, cacheLookup, hstale]
  · simp only [CacheManager.get, CacheManager.set, cacheLookup, if_pos rfl,
      hstale, if_true]
    exact cacheLookup_cacheErase _ _
  · simp only [CacheManager.get, CacheManager.set, CacheManager.get_stats,
      cacheLookup, if_pos rfl, hstale, if_true]
    calc (cacheErase (query, model)
          (((query, model), entryOfResponse r t0 ttl) ::
            cacheErase (query, model) s'.entries)).length
        = (cacheErase (query, model)
            (cacheErase (query, model) s'.entries)).length := by
          simp [cacheErase]
      _ ≤ (cacheErase (query, model) s'.entries).length :=
          cacheErase_length_le _ _
      _ < (((query, model), entryOfResponse r t0 ttl) ::
            cacheErase (query, model) s'.entries).length := by
          simp

/-- Witness for C2 at a concrete query, model, response and timeline; the
second call's provider behaviour is a hard failure, so the response it
returns can only have come from the cache. -/
theorem cache_roundtrip_ttl_witness :
    cacheLookup ("list files", "gpt-4o-mini") emptyCache.entries = none ∧
    ((10 : Int) - 0 < 86400) ∧ ((100000 : Int) - 0 > 86400) ∧
    (CommandRunner.generate_command 0 86400 "list files" "gpt-4o-mini" true
        (ProviderBehavior.structured
          { command := "ls -la", is_safe := true,
            safety_level := SafetyLevel.SAFE, explanation := none })
        emptyCache
      = Except.ok
          ({ command := "ls -la", is_safe := true,
             safety_level := SafetyLevel.SAFE, explanation := none },
           CacheManager.set 0 86400 "list files" "gpt-4o-mini"
             { command := "ls -la", is_safe := true,
               safety_level := SafetyLevel.SAFE, explanation := none }
             { emptyCache with misses := emptyCache.misses + 1 }, 1) ∧
      CommandRunner.generate_command 10 86400 "list files" "gpt-4o-mini" true
          ProviderBehavior.failure
          (CacheManager.set 0 86400 "list files" "gpt-4o-mini"
            { command := "ls -la", is_safe := true,
              safety_level := SafetyLevel.SAFE, explanation := none }
            emptyCache)
        = Except.ok
            ({ command := "ls -la", is_safe := true,
               safety_level := SafetyLevel.SAFE, explanation := none },
             { CacheManager.set 0 86400 "list files" "gpt-4o-mini"
                 { command := "ls -la", is_safe := true,
                   safety_level := SafetyLevel.SAFE, explanation := none }
                 emptyCache with
               hits := (CacheManager.set 0 86400 "list files" "gpt-4o-mini"
                 { command := "ls -la", is_safe := true,
                   safety_level := SafetyLevel.SAFE, explanation := none }
                 emptyCache).hits + 1 }, 0) ∧
      (CacheManager.get 100000 "list files" "gpt-4o-mini"
          (CacheManager.set 0 86400 "list files" "gpt-4o-mini"
            { command := "ls -la", is_safe := true,
              safety_level := SafetyLevel.SAFE, explanation := none }
            emptyCache)).1 = none ∧
      cacheLookup ("list files", "gpt-4o-mini")
          (CacheManager.get 100000 "list files" "gpt-4o-mini"
            (CacheManager.set 0 86400 "list files" "gpt-4o-mini"
              { command := "ls -la", is_safe := true,
                safety_level := SafetyLevel.SAFE, explanation := none }
              emptyCache)).2.entries = none ∧
      (CacheManager.get_stats (CacheManager.get 100000 "list files"
          "gpt-4o-mini"
          (CacheManager.set 0 86400 "list files" "gpt-4o-mini"
            { command := "ls -la", is_safe := true,
              safety_level := SafetyLevel.SAFE, explanation := none }
            emptyCache)).2).entries
        < (CacheManager.get_stats (CacheManager.set 0 86400 "list files"
            "gpt-4o-mini"
            { command := "ls -la", is_safe := true,
              safety_level := SafetyLevel.SAFE, explanation := none }
            emptyCache)).entries) :=
  ⟨rfl, by decide, by decide,
    cache_roundtrip_ttl "list files" "gpt-4o-mini" _ emptyCache emptyCache
      0 10 100000 86400 86400 ProviderBehavior.failure rfl (by decide)
      (by decide)⟩

/-! ## C3 — one history ledger entry per run -/

/-- Claim C3: every completed gate `run` leaves the prior ledger intact;
on every branch except the pure alternatives display it appends exactly
one new entry, whose `executed` flag and populated `return_code` coincide
with whether a subprocess was actually dispatched. -/
theorem gate_history_single_append (query : String) (resp : CommandResponse)
    (exec : ExecOutcome) (clip : ClipboardEnv)
    (execute force copy alternatives refine : Bool)
    (hist : List HistoryEntry) :
    (alternatives = true →
      (CommandRunner.run query resp exec clip execute force copy alternatives
        refine hist).history = hist) ∧
    (alternatives = false →
      ∃ e, (CommandRunner.run query resp exec clip execute force copy
          alternatives refine hist).history = hist ++ [e] ∧
        e.executed = (CommandRunner.run query resp exec clip execute force
          copy alternatives refine hist).subprocessInvoked ∧
        e.return_code.isSome = (CommandRunner.run query resp exec clip execute
          force copy alternatives refine hist).subprocessInvoked) := by
  constructor
  · intro ha
    simp [CommandRunner.run, ha]
  · intro ha
    subst ha
    cases refine with
    | true =>
        refine ⟨gateHistoryEntry query resp false none, ?_, ?_, ?_⟩ <;>
          simp [CommandRunner.run, gateHistoryEntry]
    | false =>
        cases execute with
        | false =>
            refine ⟨gateHistoryEntry query resp false none, ?_, ?_, ?_⟩ <;>
              simp [CommandRunner.run, gateHistoryEntry]
        | true =>
            cases hsl : resp.safety_level with
            | SAFE =>
                cases exec with
                | completed rc =>
                    refine ⟨gateHistoryEntry query resp true (some rc),
                        ?_, ?_, ?_⟩ <;>
                      simp [CommandRunner.run, gateHistoryEntry, hsl]
                | interrupted =>
                    refine ⟨gateHistoryEntry query resp true (some 130),
                        ?_, ?_, ?_⟩ <;>
                      simp [CommandRunner.run, gateHistoryEntry, hsl]
                | failed =>
                    refine ⟨gateHistoryEntry query resp true (some 1),
                        ?_, ?_, ?_⟩ <;>
                      simp [CommandRunner.run, gateHistoryEntry, hsl]
            | MODIFYING =>
                cases force with
                | false =>
                    refine ⟨gateHistoryEntry query resp false none,
                        ?_, ?_, ?_⟩ <;>
                      simp [CommandRunner.run, gateHistoryEntry, hsl]
                | true =>
                    cases exec with
                    | completed rc =>
                        refine ⟨gateHistoryEntry query resp true (some rc),
                            ?_, ?_, ?_⟩ <;>
                          simp [CommandRunner.run, gateHistoryEntry, hsl]
                    | interrupted =>
                        refine ⟨gateHistoryEntry query resp true (some 130),
                            ?_, ?_, ?_⟩ <;>
                          simp [CommandRunner.run, gateHistoryEntry, hsl]
                    | failed =>
                        refine ⟨gateHistoryEntry query resp true (some 1),
                            ?_, ?_, ?_⟩ <;>
                          simp [CommandRunner.run, gateHistoryEntry, hsl]

/-- Witness for C3: a display-only run on an empty ledger. -/
theorem gate_history_single_append_witness :
    (false = true →
      (CommandRunner.run "list files" sampleResponse (ExecOutcome.completed 0)
        noClipboard false false false false false []).history = []) ∧
    (false = false →
      ∃ e, (CommandRunner.run "list files" sampleResponse
          (ExecOutcome.completed 0) noClipboard
          false false false false false []).history = [] ++ [e] ∧
        e.executed = (CommandRunner.run "list files" sampleResponse
          (ExecOutcome.completed 0) noClipboard
          false false false false false []).subprocessInvoked ∧
        e.return_code.isSome = (CommandRunner.run "list files" sampleResponse
          (ExecOutcome.completed 0) noClipboard
          false false false false false []).subprocessInvoked) :=
  gate_history_single_append "list files" sampleResponse
    (ExecOutcome.completed 0) noClipboard false false false false false []

/-! ## C4 — process exit codes of the run pipeline -/

/-- Claim C4: with a working configuration, a run without execution exits
0; an executed command makes the process exit with the child's own return
code; a generation error exits 1; a keyboard interrupt during execution
exits 130. -/
theorem run_exit_codes (fs : FileState) (envKey : Option String)
    (c : String) (rc : Int) (exec0 : ExecOutcome) (clip : ClipboardEnv)
    (execute copy : Bool)
    (hclient : get_openai_client fs envKey = Except.ok ()) :
    processExit (runCommandPipeline fs envKey (GenOutcome.success c) exec0
      clip false copy) = 0 ∧
    processExit (runCommandPipeline fs envKey (GenOutcome.success c)
      (ExecOutcome.completed rc) clip true copy) = rc ∧
    processExit (runCommandPipeline fs envKey GenOutcome.providerError exec0
      clip execute copy) = 1 ∧
    processExit (runCommandPipeline fs envKey (GenOutcome.success c)
      ExecOutcome.interrupted clip true copy) = 130 := by
  refine ⟨?_, ?_, ?_, ?_⟩ <;>
    simp [runCommandPipeline, hclient, processExit]

/-- Witness for C4 with a valid configuration holding an API key. -/
theorem run_exit_codes_witness :
    get_openai_client (FileState.valid testConfig) none = Except.ok () ∧
    (processExit (runCommandPipeline (FileState.valid testConfig) none
        (GenOutcome.success "ls -la") (ExecOutcome.completed 7) noClipboard
        false false) = 0 ∧
      processExit (runCommandPipeline (FileState.valid testConfig) none
        (GenOutcome.success "ls -la") (ExecOutcome.completed 7) noClipboard
        true false) = 7 ∧
      processExit (runCommandPipeline (FileState.valid testConfig) none
        GenOutcome.providerError (ExecOutcome.completed 7) noClipboard
        false false) = 1 ∧
      processExit (runCommandPipeline (FileState.valid testConfig) none
        (GenOutcome.success "ls -la") ExecOutcome.interrupted noClipboard
        true false) = 130) :=
  ⟨rfl, run_exit_codes (FileState.valid testConfig) none "ls -la" 7
    (ExecOutcome.completed 7) noClipboard false false rfl⟩

/-! ## C5 — resolution of model, temperature and max_tokens -/

/-- Claim C5 as stated is refuted at a concrete input: an explicitly
passed empty model string is present, yet the code resolves the model from
the configuration instead of using the argument, because the source uses
Python `or`, which falls through on any falsy value. -/
theorem resolve_params_counterexample :
    resolveModel (some "") (some "gpt-4o") = "gpt-4o" ∧
    ("gpt-4o" : String) ≠ "" := by
  exact ⟨rfl, by decide⟩

/-- Claim C5, amended: temperature and max_tokens follow the stated
priority order exactly (explicit argument whenever it is not None, else
configuration, else the hardcoded defaults 0.3 and 200); the model follows
it only for non-empty explicit arguments — an explicitly passed empty
string is treated as absent and falls back to the configuration value,
which itself defaults to gpt-4o-mini. -/
theorem resolve_params_amended (m : String) (cfgm : Option String)
    (t : Rat) (cfgt : Option Rat) (n : Nat) (cfgn : Option Nat)
    (hm : m ≠ "") :
    resolveModel (some m) cfgm = m ∧
    resolveModel none cfgm = cfgm.getD "gpt-4o-mini" ∧
    resolveModel (some "") cfgm = cfgm.getD "gpt-4o-mini" ∧
    resolveTemperature (some t) cfgt = t ∧
    resolveTemperature none cfgt = cfgt.getD ((3 : Rat) / 10) ∧
    resolveMaxTokens (some n) cfgn = n ∧
    resolveMaxTokens none cfgn = cfgn.getD 200 := by
  refine ⟨?_, rfl, rfl, rfl, rfl, rfl, rfl⟩
  simp [resolveModel, hm]

/-- Witness for C5's amended statement at concrete arguments. -/
theorem resolve_params_amended_witness :
    ("gpt-4o" : String) ≠ "" ∧
    (resolveModel (some "gpt-4o") (some "gpt-3.5") = "gpt-4o" ∧
      resolveModel none (some "gpt-3.5") = (some "gpt-3.5").getD "gpt-4o-mini" ∧
      resolveModel (some "") (some "gpt-3.5") = (some "gpt-3.5").getD "gpt-4o-mini" ∧
      resolveTemperature (some 1) none = 1 ∧
      resolveTemperature none none = (none : Option Rat).getD ((3 : Rat) / 10) ∧
      resolveMaxTokens (some 100) none = 100 ∧
      resolveMaxTokens none none = (none : Option Nat).getD 200) :=
  ⟨by decide, resolve_params_amended "gpt-4o" (some "gpt-3.5") 1 none 100 none
    (by decide)⟩

/-! ## C7 — configuration errors are fatal -/

/-- Claim C7: a config file with invalid JSON, or a missing API
credential, makes the run exit with code 1 and a remediation hint before
any provider call; and no invocation ever makes more than one provider
call (there is no retry loop). -/
theorem config_errors_fatal (fs : FileState) (envKey : Option String)
    (cfg : ConfigData) (gen : GenOutcome) (exec : ExecOutcome)
    (clip : ClipboardEnv) (execute copy : Bool)
    (hkey : resolveApiKey cfg envKey = none) :
    ((runCommandPipeline FileState.invalidJson envKey gen exec clip execute
        copy).exitCode = some 1 ∧
      (runCommandPipeline FileState.invalidJson envKey gen exec clip execute
        copy).hintShown = true ∧
      (runCommandPipeline FileState.invalidJson envKey gen exec clip execute
        copy).providerCalls = 0) ∧
    ((runCommandPipeline (FileState.valid cfg) envKey gen exec clip execute
        copy).exitCode = some 1 ∧
      (runCommandPipeline (FileState.valid cfg) envKey gen exec clip execute
        copy).hintShown = true ∧
      (runCommandPipeline (FileState.valid cfg) envKey gen exec clip execute
        copy).providerCalls = 0) ∧
    (runCommandPipeline fs envKey gen exec clip execute copy).providerCalls
      ≤ 1 := by
  refine ⟨?_, ?_, ?_⟩
  · refine ⟨?_, ?_, ?_⟩ <;>
      simp [runCommandPipeline, get_openai_client, load_config]
  · refine ⟨?_, ?_, ?_⟩ <;>
      simp [runCommandPipeline, get_openai_client, load_config, hkey]
  · cases hc : get_openai_client fs envKey with
    | error code => simp [runCommandPipeline, hc]
    | ok u =>
        cases gen with
        | providerError => simp [runCommandPipeline, hc]
        | success c =>
            cases execute with
            | false => simp [runCommandPipeline, hc]
            | true => cases exec <;> simp [runCommandPipeline, hc]

/-- Witness for C7: the empty configuration resolves no API key. -/
theorem config_errors_fatal_witness :
    resolveApiKey emptyConfig none = none ∧
    (((runCommandPipeline FileState.invalidJson none
        (GenOutcome.success "ls -la") (ExecOutcome.completed 0) noClipboard
        false false).exitCode = some 1 ∧
      (runCommandPipeline FileState.invalidJson none
        (GenOutcome.success "ls -la") (ExecOutcome.completed 0) noClipboard
        false false).hintShown = true ∧
      (runCommandPipeline FileState.invalidJson none
        (GenOutcome.success "ls -la") (ExecOutcome.completed 0) noClipboard
        false false).providerCalls = 0) ∧
    ((runCommandPipeline (FileState.valid emptyConfig) none
        (GenOutcome.success "ls -la") (ExecOutcome.completed 0) noClipboard
        false false).exitCode = some 1 ∧
      (runCommandPipeline (FileState.valid emptyConfig) none
        (GenOutcome.success "ls -la") (ExecOutcome.completed 0) noClipboard
        false false).hintShown = true ∧
      (runCommandPipeline (FileState.valid emptyConfig) none
        (GenOutcome.success "ls -la") (ExecOutcome.completed 0) noClipboard
        false false).providerCalls = 0) ∧
    (runCommandPipeline FileState.absent none (GenOutcome.success "ls -la")
        (ExecOutcome.completed 0) noClipboard false false).providerCalls
      ≤ 1) :=
  ⟨rfl, config_errors_fatal FileState.absent none emptyConfig
    (GenOutcome.success "ls -la") (ExecOutcome.completed 0) noClipboard
    false false rfl⟩

/-! ## C8 — clipboard copying is best-effort -/

/-- Claim C8: `copy_to_clipboard` always returns a boolean — `false` when
no clipboard tool is on PATH or when both tool invocations fail — and a
copy failure inside a run with `copy=true` only prints a warning: the
command is still displayed, and the exit code and subprocess dispatch are
the same as without the copy flag. -/
theorem clipboard_best_effort (e : ClipboardEnv) (fs : FileState)
    (envKey : Option String) (c : String) (exec : ExecOutcome)
    (clip : ClipboardEnv) (execute : Bool)
    (hfail : copy_to_clipboard clip = false)
    (hclient : get_openai_client fs envKey = Except.ok ()) :
    (copy_to_clipboard e = true ∨ copy_to_clipboard e = false) ∧
    (check_clipboard_available e = false → copy_to_clipboard e = false) ∧
    (e.xclipRunOk = false → e.xselRunOk = false →
      copy_to_clipboard e = false) ∧
    (runCommandPipeline fs envKey (GenOutcome.success c) exec clip execute
      true).clipboardWarned = true ∧
    (runCommandPipeline fs envKey (GenOutcome.success c) exec clip execute
      true).displayed = true ∧
    (runCommandPipeline fs envKey (GenOutcome.success c) exec clip execute
        true).exitCode
      = (runCommandPipeline fs envKey (GenOutcome.success c) exec clip execute
        false).exitCode ∧
    (runCommandPipeline fs envKey (GenOutcome.success c) exec clip execute
        true).subprocessInvoked
      = (runCommandPipeline fs envKey (GenOutcome.success c) exec clip execute
        false).subprocessInvoked := by
  refine ⟨?_, ?_, ?_, ?_, ?_, ?_, ?_⟩
  · exact Bool.eq_false_or_eq_true _
  · intro hav
    simp [copy_to_clipboard, hav]
  · intro h1 h2
    simp [copy_to_clipboard, h1, h2]
  · cases execute with
    | false => simp [runCommandPipeline, hclient, hfail]
    | true => cases exec <;> simp [runCommandPipeline, hclient, hfail]
  · cases execute with
    | false => simp [runCommandPipeline, hclient]
    | true => cases exec <;> simp [runCommandPipeline, hclient]
  · cases execute with
    | false => simp [runCommandPipeline, hclient]
    | true => cases exec <;> simp [runCommandPipeline, hclient]
  · cases execute with
    | false => simp [runCommandPipeline, hclient]
    | true => cases exec <;> simp [runCommandPipeline, hclient]

/-- Witness for C8 on a machine without clipboard tools. -/
theorem clipboard_best_effort_witness :
    copy_to_clipboard noClipboard = false ∧
    get_openai_client (FileState.valid testConfig) none = Except.ok () ∧
    ((copy_to_clipboard noClipboard = true ∨
        copy_to_clipboard noClipboard = false) ∧
      (check_clipboard_available noClipboard = false →
        copy_to_clipboard noClipboard = false) ∧
      (noClipboard.xclipRunOk = false → noClipboard.xselRunOk = false →
        copy_to_clipboard noClipboard = false) ∧
      (runCommandPipeline (FileState.valid testConfig) none
        (GenOutcome.success "ls -la") (ExecOutcome.completed 0) noClipboard
        false true).clipboardWarned = true ∧
      (runCommandPipeline (FileState.valid testConfig) none
        (GenOutcome.success "ls -la") (ExecOutcome.completed 0) noClipboard
        false true).displayed = true ∧
      (runCommandPipeline (FileState.valid testConfig) none
          (GenOutcome.success "ls -la") (ExecOutcome.completed 0) noClipboard
          false true).exitCode
        = (runCommandPipeline (FileState.valid testConfig) none
          (GenOutcome.success "ls -la") (ExecOutcome.completed 0) noClipboard
          false false).exitCode ∧
      (runCommandPipeline (FileState.valid testConfig) none
          (GenOutcome.success "ls -la") (ExecOutcome.completed 0) noClipboard
          false true).subprocessInvoked
        = (runCommandPipeline (FileState.valid testConfig) none
          (GenOutcome.success "ls -la") (ExecOutcome.completed 0) noClipboard
          false false).subprocessInvoked) :=
  ⟨rfl, rfl, clipboard_best_effort noClipboard (FileState.valid testConfig)
    none "ls -la" (ExecOutcome.completed 0) noClipboard false rfl rfl⟩

/-! ## C9 — init-config never overwrites an existing configuration -/

/-- Claim C9: whenever the config file exists in any state,
`create_default_config` returns `false` and leaves the file untouched; the
file state changes only when no config file existed, and a successful
write from the absent state installs exactly the default template and
returns `true`. -/
theorem init_config_no_overwrite (fs fs0 : FileState) (w : Bool)
    (hex : fs ≠ FileState.absent) :
    create_default_config fs w = (false, fs) ∧
    (w = true → create_default_config FileState.absent w
      = (true, FileState.valid default_config)) ∧
    ((create_default_config fs0 w).2 ≠ fs0 → fs0 = FileState.absent) := by
  refine ⟨?_, ?_, ?_⟩
  · cases fs with
    | absent => exact absurd rfl hex
    | invalidJson => rfl
    | unreadable => rfl
    | valid cfg => rfl
  · intro hw
    subst hw
    rfl
  · intro hch
    cases fs0 with
    | absent => rfl
    | invalidJson => exact absurd rfl hch
    | unreadable => exact absurd rfl hch
    | valid cfg => exact absurd rfl hch

/-- Witness for C9 at an existing valid config file. -/
theorem init_config_no_overwrite_witness :
    FileState.valid testConfig ≠ FileState.absent ∧
    (create_default_config (FileState.valid testConfig) true
        = (false, FileState.valid testConfig) ∧
      (true = true → create_default_config FileState.absent true
        = (true, FileState.valid default_config)) ∧
      ((create_default_config FileState.absent true).2 ≠ FileState.absent →
        FileState.absent = FileState.absent)) :=
  ⟨by decide, init_config_no_overwrite (FileState.valid testConfig)
    FileState.absent true (by decide)⟩

/-! ## C10 — a missing config file is not an error -/

/-- Claim C10: `load_config` on a missing file returns the empty
configuration rather than failing, and command generation then resolves
the hardcoded defaults gpt-4o-mini, 0.3 and 200. -/
theorem missing_config_defaults :
    load_config FileState.absent = Except.ok emptyConfig ∧
    resolveModel none emptyConfig.default_model = "gpt-4o-mini" ∧
    resolveTemperature none emptyConfig.temperature = (3 : Rat) / 10 ∧
    resolveMaxTokens none emptyConfig.max_tokens = 200 :=
  ⟨rfl, rfl, rfl, rfl⟩

/-- Witness for C6's amended statement: a fenced payload with header
`bash` and the single inner line `ls -la`. -/
theorem fence_strip_amended_witness :
    ('\n' ∉ ['b', 'a', 's', 'h']) ∧
    (∀ l ∈ [['l', 's', ' ', '-', 'l', 'a']], '\n' ∉ l) ∧
    ([['l', 's', ' ', '-', 'l', 'a']] : List (List Char)) ≠ [] ∧
    extractCommand (fenceMarker ++ ['b', 'a', 's', 'h'] ++ '\n' ::
        (pyJoinNl [['l', 's', ' ', '-', 'l', 'a']] ++ '\n' :: fenceMarker))
      = pyStrip (pyJoinNl [['l', 's', ' ', '-', 'l', 'a']]) :=
  ⟨by decide, by decide, by decide,
    fence_strip_amended ['b', 'a', 's', 'h'] [['l', 's', ' ', '-', 'l', 'a']]
      (by decide) (by decide) (by decide)⟩
